import Mathlib

/-!
Shallow embedding of the mismo.dj_midi controller-server core pipeline:
the 14-bit MIDI CC reconstruction (MIDIManager), the HID poller and state
differ (HIDManager), the two action translators, the priority action
router, and the feedback throttle (FeedbackManager).  Each definition
mirrors one JavaScript function from the repository; JavaScript `Map`s are
modelled as association lists with unique keys, `undefined` as `Option`,
time (`Date.now()`) as an explicit `Nat` parameter, and the dynamic
`new Function` expression evaluator as an abstract oracle argument.
-/

namespace Mismo

/-! ### Association-list model of a JavaScript Map -/

def mapGet {K V : Type} [DecidableEq K] : List (K × V) → K → Option V
  | [], _ => none
  | (k, v) :: rest, key => if k = key then some v else mapGet rest key

def mapSet {K V : Type} [DecidableEq K] : List (K × V) → K → V → List (K × V)
  | [], key, val => [(key, val)]
  | (k, v) :: rest, key, val =>
      if k = key then (key, val) :: rest else (k, v) :: mapSet rest key val

def mapDelete {K V : Type} [DecidableEq K] : List (K × V) → K → List (K × V)
  | [], _ => []
  | (k, v) :: rest, key => if k = key then rest else (k, v) :: mapDelete rest key

/-! ### MIDIManager: 14-bit CC reconstruction (`_handle14BitCC`) -/

/-- A normalized CC message as produced by `_normalizeMIDIMessage`. -/
structure CCMessage where
  type : String
  channel : Nat
  controller : Nat
  value : Nat
  timestamp : Nat
deriving Repr, DecidableEq

/-- The combined 14-bit event returned when an LSB completes a pending MSB. -/
structure Combined14 where
  type : String
  channel : Nat
  controller : Nat
  value : Nat
  timestamp : Nat
  value14bit : Nat
  maxValue : Nat
  normalized : ℚ
  highRes : Bool
  lsbController : Nat
  msb : Nat
  lsb : Nat
deriving Repr, DecidableEq

/-- One entry of the per-device pending-MSB table. -/
structure PendingMSB where
  value : Nat
  timestamp : Nat
  channel : Nat
deriving Repr, DecidableEq

/-- Per-device pending table, keyed by `(channel, msbController)`
(the JS string key `channel:msbController`). -/
def PendingMap : Type := List ((Nat × Nat) × PendingMSB)

instance : DecidableEq PendingMap := by
  unfold PendingMap
  infer_instance

def highResCCTimeout : Nat := 50

/-- `MIDIManager._handle14BitCC`, one call on one device's pending table.
`now` stands for `Date.now()`; timestamps are monotone so the JS
subtractions never go negative and `Nat` subtraction is faithful. -/
def handle14BitCC (st : PendingMap) (msg : CCMessage) (now : Nat) :
    Option Combined14 × PendingMap :=
  if msg.type ≠ "cc" then (none, st)
  else if 32 ≤ msg.controller ∧ msg.controller < 64 then
    -- LSB: combine with a recent pending MSB, if any
    let msbController := msg.controller - 32
    let key := (msg.channel, msbController)
    match mapGet st key with
    | some msbData =>
        if now - msbData.timestamp < highResCCTimeout then
          let combinedValue := msbData.value * 128 + msg.value
          (some { type := msg.type, channel := msg.channel,
                  controller := msbController, value := combinedValue,
                  timestamp := msg.timestamp, value14bit := combinedValue,
                  maxValue := 16383,
                  normalized := (combinedValue : ℚ) / 16383, highRes := true,
                  lsbController := msbController + 32, msb := msbData.value,
                  lsb := msg.value },
           mapDelete st key)
        else (none, st)
    | none => (none, st)
  else if msg.controller < 32 then
    -- possible MSB: store it, then sweep entries older than the window
    let key := (msg.channel, msg.controller)
    let stored := mapSet st key
      { value := msg.value, timestamp := now, channel := msg.channel }
    let swept := stored.filter fun e => ¬ (now - e.2.timestamp > highResCCTimeout)
    (none, swept)
  else (none, st)

/-! ### JavaScript value model for translator outputs and expressions -/

/-- A JavaScript value as it appears in translated actions and expression
results.  `undefVal` is `undefined`; `nan` stands for the non-finite numbers
(NaN and the infinities) that JS arithmetic on bad input produces; `dict`
covers the modifier-state object passed to HID expressions. -/
inductive JSVal where
  | num (q : ℚ)
  | str (s : String)
  | bool (b : Bool)
  | undefVal
  | nan
  | dict (entries : List (String × Bool))
deriving Repr, DecidableEq

/-- Oracle for the JS engine behind `new Function(...paramNames, body)`:
given the expression text and the named-variable context, it either
returns a value or throws (modelled as `Except.error`). -/
def JSEval : Type := String → List (String × JSVal) → Except String JSVal

/-- JS truthiness of a value (`if (v)`). -/
def jsTruthy : JSVal → Bool
  | .num q => q ≠ 0
  | .str s => s ≠ ""
  | .bool b => b
  | .undefVal => false
  | .nan => false
  | .dict _ => true

/-- `a || d` for an optional JS number (`0` and `undefined` are falsy). -/
def jsNumOr (a : Option Nat) (d : Nat) : Nat :=
  match a with
  | some n => if n = 0 then d else n
  | none => d

/-- `a || b` for two optional JS numbers (`velocity || value`). -/
def jsRawOr (a b : Option Nat) : Option Nat :=
  match a with
  | some n => if n = 0 then b else some n
  | none => b

/-- `s || d` for an optional JS string (`""` and `undefined` are falsy). -/
def jsStrOr (s : Option String) (d : String) : String :=
  match s with
  | some v => if v = "" then d else v
  | none => d

/-- `if (s) target = s` for an optional JS string field (falsy left unset). -/
def jsStrOpt (s : Option String) : Option String :=
  match s with
  | some v => if v = "" then none else some v
  | none => none

/-- `a || d` for an optional JS integer (`0` and `undefined` are falsy). -/
def jsIntOr (a : Option Int) (d : Int) : Int :=
  match a with
  | some n => if n = 0 then d else n
  | none => d

/-- JS division producing a number, with the zero-denominator cases
(NaN / ±Infinity) collapsed into `nan`. -/
def jsDiv (a b : ℚ) : JSVal :=
  if b = 0 then .nan else .num (a / b)

/-- An optional JS integer as a JS value (`undefined` when absent). -/
def jsOptInt (a : Option Int) : JSVal :=
  match a with
  | some n => .num n
  | none => .undefVal

/-! ### Mapping configuration (the validated on-disk shape) -/

/-- The `midi` wire pattern of one control mapping. -/
structure MIDIPattern where
  type : String
  channel : Nat
  note : Option Nat
  controller : Option Nat
deriving Repr, DecidableEq

/-- The `action` template of one control mapping. -/
structure ActionTemplate where
  type : String
  command : String
  deck : Option String
  value : Option JSVal
  valueExpression : Option String
  direction : Option String
  mode : Option String
  emitRelease : Bool
  target : Option String
  priority : Option String
deriving Repr, DecidableEq

/-- One named control mapping (the feedback descriptor is not needed by
any modelled function and is omitted). -/
structure MappingEntry where
  midi : Option MIDIPattern
  action : Option ActionTemplate
  target : Option String
  priority : Option String
  condition : Option String
deriving Repr, DecidableEq

/-- One control of the HID parsing descriptor (`parsing.controls`).
`signed` models JS truthiness of the flag; the unused `config` back-pointer
stored in parsed state is omitted. -/
structure ParsingControl where
  type : String
  byte : Option Nat
  bit : Nat
  bytes : Option (List Nat)
  signed : Bool
  resolution : Option Nat
  min : Option Int
  max : Option Int
deriving Repr, DecidableEq

structure DeviceInfo where
  name : String
  protocol : String
deriving Repr, DecidableEq

/-- A loaded device mapping file: the `device` section, the named control
mappings, and the HID `parsing.controls` table (flattened one level). -/
structure DeviceMapping where
  device : Option DeviceInfo
  mappings : List (String × MappingEntry)
  controls : List (String × ParsingControl)
deriving Repr, DecidableEq

/-- `key.startsWith("_")`: the first character is an underscore.
(`String.startsWith` itself does not reduce in the kernel.) -/
def startsWithUnderscore (key : String) : Bool :=
  key.data.head? = some '_'

/-- `validateDeviceMapping` (config.js): `true` iff the JS validator does
not throw.  The JS falsy checks on `target`/`priority` are subsumed by the
enum membership tests since `""` is not in either enum. -/
def validateMappingEntry (key : String) (mp : MappingEntry) : Bool :=
  if startsWithUnderscore key then true
  else
    mp.action.isSome &&
    (match mp.target with
     | some t => ["audio", "app", "ui"].contains t
     | none => false) &&
    (match mp.priority with
     | some p => ["critical", "high", "normal"].contains p
     | none => false)

def validateDeviceMapping (cfg : DeviceMapping) : Bool :=
  match cfg.device with
  | none => false
  | some d =>
      d.name ≠ "" &&
      (d.protocol = "midi" || d.protocol = "hid") &&
      cfg.mappings.all fun kv => validateMappingEntry kv.1 kv.2

/-! ### MIDITranslator -/

/-- A normalized MIDI event as handed to `MIDITranslator.translate`. -/
structure MIDIEvent where
  deviceId : String
  type : String
  channel : Nat
  timestamp : Nat
  note : Option Nat
  velocity : Option Nat
  controller : Option Nat
  value : Option Nat
  highRes : Bool
  normalized : Option ℚ
deriving Repr, DecidableEq

/-- The action built by `MIDITranslator._buildAction`. -/
structure MIDIAction where
  type : String
  command : String
  target : Option String
  priority : Option String
  timestamp : Nat
  deviceId : String
  deck : Option String
  value : JSVal
  direction : Option JSVal
deriving Repr, DecidableEq

/-- `MIDITranslator._createLookupKey`: `parts.join(":")`. -/
def createLookupKey (e : MIDIEvent) : String :=
  let base := [e.type, toString e.channel]
  let parts :=
    match e.note with
    | some n => base ++ ["note", toString n]
    | none =>
        match e.controller with
        | some c => base ++ ["cc", toString c]
        | none => base
  String.intercalate ":" parts

/-- `MIDITranslator._createLookupKeyFromConfig`. -/
def createLookupKeyFromConfig (p : MIDIPattern) : String :=
  let base := [p.type, toString p.channel]
  let parts :=
    match p.note with
    | some n => base ++ ["note", toString n]
    | none =>
        match p.controller with
        | some c => base ++ ["cc", toString c]
        | none => base
  String.intercalate ":" parts

/-- `MIDITranslator._buildLookupTable`: lookup key → mapping name. -/
def buildLookupTable (mappings : List (String × MappingEntry)) :
    List (String × String) :=
  mappings.foldl
    (fun table kv =>
      match kv.2.midi with
      | none => table
      | some pat => mapSet table (createLookupKeyFromConfig pat) kv.1)
    []

/-- The `value` variable of the MIDI expression context:
`midiEvent.value || midiEvent.velocity || 0`. -/
def midiCtxValue (e : MIDIEvent) : Nat :=
  jsNumOr e.value (jsNumOr e.velocity 0)

/-- The `velocity` variable of the MIDI expression context. -/
def midiCtxVelocity (e : MIDIEvent) : Nat :=
  jsNumOr e.velocity 0

def midiExprCtx (e : MIDIEvent) : List (String × JSVal) :=
  [("value", .num (midiCtxValue e)), ("velocity", .num (midiCtxVelocity e))]

/-- `MIDITranslator._evaluateExpression`: run the oracle on the two-variable
context; on any error log and fall back to the context's `value`. -/
def evaluateExpressionMIDI (evalJS : JSEval) (expression : String)
    (e : MIDIEvent) : JSVal :=
  match evalJS expression (midiExprCtx e) with
  | .ok v => v
  | .error _ => .num (midiCtxValue e)

/-- `MIDITranslator._buildAction`.  The JS body mutates one `action` object
field by field; here the final value of each field is computed and the
record is built once.  A missing `action` template makes the JS body throw,
which `translate`'s catch turns into `null`: that path is `none`. -/
def buildActionMIDI (evalJS : JSEval) (mp : MappingEntry) (e : MIDIEvent) :
    Option MIDIAction :=
  match mp.action with
  | none => none
  | some act =>
      let value0 : JSVal :=
        match act.value with
        | some v => v
        | none =>
            match act.valueExpression with
            | some expr => evaluateExpressionMIDI evalJS expr e
            | none =>
                if e.highRes ∧ e.normalized.isSome then
                  .num (e.normalized.getD 0)
                else
                  let rawValue := jsRawOr e.velocity e.value
                  if e.type = "cc" then
                    match rawValue with
                    | some n => .num ((n : ℚ) / 127)
                    | none => .nan
                  else
                    match rawValue with
                    | some n => .num n
                    | none => .undefVal
      let value :=
        if act.type = "transport" ∧ e.type = "noteon" then
          .bool (decide (0 < e.velocity.getD 0))
        else value0
      some { type := act.type, command := act.command, target := mp.target,
             priority := mp.priority, timestamp := e.timestamp,
             deviceId := e.deviceId, deck := jsStrOpt act.deck,
             value := value,
             direction := act.direction.map
               fun d => evaluateExpressionMIDI evalJS d e }

/-- `MIDITranslator.translate`: exact-key lookup, then `_buildAction`
inside try/catch (a throw yields `null`). -/
def translateMIDI (evalJS : JSEval) (cfg : DeviceMapping) (e : MIDIEvent) :
    Option MIDIAction :=
  match mapGet (buildLookupTable cfg.mappings) (createLookupKey e) with
  | none => none
  | some mappingKey =>
      match mapGet cfg.mappings mappingKey with
      | none => none
      | some mp => buildActionMIDI evalJS mp e

/-! ### HIDTranslator -/

/-- An HID control-change event as emitted by `HIDManager._pollDevice`. -/
structure HIDEvent where
  deviceId : String
  control : String
  type : String
  value : Int
  delta : Option Int
  timestamp : Nat
deriving Repr, DecidableEq

/-- The action built by `HIDTranslator._buildAction` (`from` is a Lean
keyword, so that field is called `fromDev`). -/
structure HIDAction where
  type : String
  command : String
  target : String
  priority : String
  timestamp : Nat
  deviceId : String
  fromDev : String
  deck : Option String
  value : JSVal
  delta : Option Int
  direction : Option JSVal
  mode : Option JSVal
  rawValue : Option Int
deriving Repr, DecidableEq

/-- The modifier-state side table of one `HIDTranslator` instance. -/
structure HIDTranslatorState where
  modifierState : List (String × Bool)
deriving Repr, DecidableEq

/-- Context handed to HID expressions:
`{value, delta, state: modifierState, ...modifierState}`. -/
def hidExprCtx (modState : List (String × Bool)) (e : HIDEvent) :
    List (String × JSVal) :=
  [("value", .num e.value), ("delta", jsOptInt e.delta),
   ("state", .dict modState)] ++ modState.map fun p => (p.1, .bool p.2)

/-- `HIDTranslator._evaluateExpression`: oracle on the HID context; on any
error log and fall back to `hidEvent.value`. -/
def evaluateExpressionHID (evalJS : JSEval) (modState : List (String × Bool))
    (expression : String) (e : HIDEvent) : JSVal :=
  match evalJS expression (hidExprCtx modState e) with
  | .ok v => v
  | .error _ => .num e.value

def conditionCtx (modState : List (String × Bool)) : List (String × JSVal) :=
  ("state", .dict modState) :: modState.map fun p => (p.1, .bool p.2)

/-- `HIDTranslator._evaluateCondition`: truthiness of the oracle result;
any error means `false`. -/
def evaluateCondition (evalJS : JSEval) (modState : List (String × Bool))
    (condition : String) : Bool :=
  match evalJS condition (conditionCtx modState) with
  | .ok v => jsTruthy v
  | .error _ => false

/-- `HIDTranslator._buildAction`.  As for MIDI, field-by-field mutation is
replaced by computing each field's final value; the two early `return null`
paths (suppressed button release, failed condition) come first. -/
def buildActionHID (evalJS : JSEval) (deviceName : String)
    (modState : List (String × Bool)) (cfg : DeviceMapping)
    (mp : MappingEntry) (act : ActionTemplate) (e : HIDEvent) :
    Option HIDAction :=
  match mapGet cfg.controls e.control with
  | none => none
  | some cc =>
      if cc.type = "button" ∧ ¬ 0 < e.value ∧ act.emitRelease = false then
        none
      else if (match mp.condition with
               | some c => !(evaluateCondition evalJS modState c)
               | none => false : Bool) then
        none
      else
        let value0 : JSVal :=
          if cc.type = "delta" then .num e.value
          else if cc.type = "button" then .bool (decide (0 < e.value))
          else if cc.type = "absolute" then
            let mn : Int := cc.min.getD 0
            let mx : Int := jsIntOr cc.max (2 ^ cc.resolution.getD 0 - 1)
            jsDiv ((e.value : ℚ) - (mn : ℚ)) ((mx : ℚ) - (mn : ℚ))
          else .undefVal
        let value :=
          match act.valueExpression with
          | some expr => evaluateExpressionHID evalJS modState expr e
          | none => value0
        some { type := act.type, command := act.command,
               target := jsStrOr act.target "audio",
               priority := jsStrOr act.priority "normal",
               timestamp := e.timestamp, deviceId := e.deviceId,
               fromDev := deviceName, deck := jsStrOpt act.deck,
               value := value,
               delta := if cc.type = "delta" ∨ cc.type = "encoder" then
                   e.delta
                 else none,
               direction := if cc.type = "encoder" then
                   some (match act.direction with
                     | some d => evaluateExpressionHID evalJS modState d e
                     | none =>
                         .str (if 0 < e.delta.getD 0 then "up" else "down"))
                 else none,
               mode := if cc.type = "delta" then
                   act.mode.map fun m => evaluateExpressionHID evalJS modState m e
                 else none,
               rawValue := if cc.type = "absolute" then some e.value
                 else none }

/-- `HIDTranslator.translate`: mapping lookup by control name, modifier-state
update for `type: "modifier"` parsing controls, then `_buildAction` inside
try/catch (a missing `action` template throws there, yielding `null`). -/
def translateHID (evalJS : JSEval) (cfg : DeviceMapping) (deviceName : String)
    (ts : HIDTranslatorState) (e : HIDEvent) :
    Option HIDAction × HIDTranslatorState :=
  match mapGet cfg.mappings e.control with
  | none => (none, ts)
  | some mp =>
      let isModifier : Bool :=
        match mapGet cfg.controls e.control with
        | some pc => decide (pc.type = "modifier")
        | none => false
      let ts' :=
        if isModifier then
          { modifierState := mapSet ts.modifierState e.control (decide (0 < e.value)) }
        else ts
      match mp.action with
      | none => (none, ts')
      | some act =>
          (buildActionHID evalJS deviceName ts'.modifierState cfg mp act e, ts')

/-! ### ActionRouter -/

/-- An action as the router sees it (only `target` and `priority` steer
routing; the payload fields are carried along into the wire message). -/
structure RouterAction where
  type : String
  command : String
  target : Option String
  priority : Option String
  timestamp : Nat
  deck : Option String
  value : JSVal
  delta : Option Int
  direction : Option JSVal
  fromDev : Option String
deriving Repr, DecidableEq

/-- The mutable state of one `ActionRouter`.  `sent` is the ordered log of
actions handed to `_sendAction` (the downstream `client.send`). -/
structure RouterState where
  highQueue : List RouterAction
  normalQueue : List RouterAction
  isProcessing : Bool
  maxQueueSize : Nat
  totalActions : Nat
  droppedActions : Nat
  actionsByPriority : List (String × Nat)
  actionsByTarget : List (String × Nat)
  sent : List RouterAction
deriving Repr, DecidableEq

/-- Constructor state: empty queues, `maxQueueSize = 1000`, zeroed stats. -/
def initialRouterState : RouterState :=
  { highQueue := [], normalQueue := [], isProcessing := false,
    maxQueueSize := 1000, totalActions := 0, droppedActions := 0,
    actionsByPriority := [("critical", 0), ("high", 0), ("normal", 0)],
    actionsByTarget := [("audio", 0), ("app", 0), ("ui", 0)],
    sent := [] }

/-- `stats.xxx[key]++` (for the enum keys initialised in the constructor;
a key outside the map would be NaN in JS and starts from 0 here). -/
def bumpCounter (m : List (String × Nat)) (k : String) : List (String × Nat) :=
  mapSet m k ((mapGet m k).getD 0 + 1)

/-- `ActionRouter._sendAction` abstracted: log the send and report the
downstream result given by the `sendOk` oracle. -/
def sendAction (sendOk : RouterAction → Bool) (st : RouterState)
    (a : RouterAction) : Bool × RouterState :=
  (sendOk a, { st with sent := st.sent ++ [a] })

/-- `ActionRouter.route`: reject actions missing `target`/`priority`,
bump stats, send critical actions immediately, enqueue high/normal with the
bounded-queue drop policy (the new action is dropped, `false` returned). -/
def route (sendOk : RouterAction → Bool) (st : RouterState)
    (a : RouterAction) : Bool × RouterState :=
  if a.target = none ∨ a.priority = none then (false, st)
  else
    let st :=
      { st with totalActions := st.totalActions + 1,
                actionsByPriority := bumpCounter st.actionsByPriority
                  (a.priority.getD ""),
                actionsByTarget := bumpCounter st.actionsByTarget
                  (a.target.getD "") }
    if a.priority = some "critical" then
      let (ok, st') := sendAction sendOk st a
      (ok, st')
    else if a.priority = some "high" then
      if st.maxQueueSize ≤ st.highQueue.length then
        (false, { st with droppedActions := st.droppedActions + 1 })
      else (true, { st with highQueue := st.highQueue ++ [a] })
    else
      if st.maxQueueSize ≤ st.normalQueue.length then
        (false, { st with droppedActions := st.droppedActions + 1 })
      else (true, { st with normalQueue := st.normalQueue ++ [a] })

/-- One scheduling turn of the dispatch loop (`_processQueues`): nothing if
a turn is already in flight, else ship one action, the high queue strictly
first.  The turn clears its own `isProcessing` flag, so the net flag value
is unchanged. -/
def processQueues (st : RouterState) : RouterState :=
  if st.isProcessing then st
  else
    match st.highQueue with
    | a :: rest => { st with highQueue := rest, sent := st.sent ++ [a] }
    | [] =>
        match st.normalQueue with
        | a :: rest => { st with normalQueue := rest, sent := st.sent ++ [a] }
        | [] => st

/-- `k` turns of the continuous dispatch loop (`_startProcessing`). -/
def runDispatch : Nat → RouterState → RouterState
  | 0, st => st
  | k + 1, st => runDispatch k (processQueues st)

/-- A router whose queues were filled before any dispatch turn ran. -/
def queuedRouter (hs ns : List RouterAction) : RouterState :=
  { initialRouterState with highQueue := hs, normalQueue := ns }

/-! ### HIDManager: report parsing, state diffing, polling -/

/-- Parsed state of one control
(`state[controlName] = { value, type, ... }`); `absolutePosition` is the
running position `_computeDeltas` accumulates onto delta-type controls.
An `undefined` parsed value is `none`. -/
structure HIDControlState where
  value : Option Int
  type : String
  absolutePosition : Option Int
deriving Repr, DecidableEq

/-- One change record produced by `_computeDeltas`.  Arithmetic on an
`undefined` operand gives NaN in JS; those degenerate values are `none`. -/
structure HIDDelta where
  control : String
  type : String
  value : Option Int
  previousValue : Option Int
  delta : Option Int
deriving Repr, DecidableEq

/-- `rawValue |= byte << (i * 8)` over the configured byte indices, missing
bytes skipped (values stay within JS 32-bit integer range in practice). -/
def buildRawValue (data : List Nat) (idxs : List Nat) : Nat :=
  idxs.enum.foldl
    (fun rawValue p =>
      match data[p.2]? with
      | none => rawValue
      | some b => rawValue ||| (b <<< (p.1 * 8)))
    0

/-- Parse one control out of a report, mirroring the three branches of the
parser `_createParser` builds.  Outer `none` is the button branch's
`continue` (no state entry this tick); the inner option is the control's
possibly-`undefined` value. -/
def parseControl (data : List Nat) (cc : ParsingControl) : Option (Option Int) :=
  if cc.type = "button" then
    match cc.byte with
    | none => none
    | some bi =>
        match data[bi]? with
        | none => none
        | some b => some (some (((b >>> cc.bit) &&& 1 : Nat) : Int))
  else
    match cc.bytes with
    | some idxs =>
        let rawValue := buildRawValue data idxs
        let v : Int :=
          if cc.signed then
            match cc.resolution with
            | some r =>
                if r = 0 then rawValue
                else if 2 ^ r / 2 ≤ rawValue then (rawValue : Int) - 2 ^ r
                else rawValue
            | none => rawValue
          else rawValue
        some (some v)
    | none =>
        match cc.byte with
        | some bi => some ((data[bi]?).map fun b => (b : Int))
        | none => some none

/-- The parser returned by `_createParser`, applied to one raw report. -/
def parseReport (controls : List (String × ParsingControl)) (data : List Nat) :
    List (String × HIDControlState) :=
  controls.foldl
    (fun st kv =>
      match parseControl data kv.2 with
      | none => st
      | some v =>
          mapSet st kv.1 { value := v, type := kv.2.type, absolutePosition := none })
    []

/-- `HIDManager._computeDeltas` over the entries of `currentState`, also
returning `currentState` with the in-place `absolutePosition` mutations. -/
def computeDeltas (prev : List (String × HIDControlState)) :
    List (String × HIDControlState) →
      List HIDDelta × List (String × HIDControlState)
  | [] => ([], [])
  | (name, cs) :: rest =>
      let (ds, restUpd) := computeDeltas prev rest
      let previousValue := (mapGet prev name).bind HIDControlState.value
      if previousValue ≠ cs.value then
        if cs.type = "delta" then
          let absPrev := ((mapGet prev name).bind HIDControlState.absolutePosition).getD 0
          let newValue := cs.value.map fun v => absPrev + v
          let d : HIDDelta :=
            { control := name, type := cs.type, value := newValue,
              previousValue := previousValue, delta := cs.value }
          (d :: ds, (name, { cs with absolutePosition := newValue }) :: restUpd)
        else
          let d : HIDDelta :=
            { control := name, type := cs.type, value := cs.value,
              previousValue := previousValue,
              delta := cs.value.map fun v => v - previousValue.getD 0 }
          (d :: ds, (name, cs) :: restUpd)
      else (ds, (name, cs) :: restUpd)

/-- The per-device state fields `_pollDevice` reads and writes. -/
structure HIDDeviceState where
  state : List (String × HIDControlState)
  previousState : List (String × HIDControlState)
deriving Repr, DecidableEq

/-- `HIDManager._pollDevice` on one successful read: parse, diff against
`previousState` (exactly as the source does, before the shift below), then
shift `state` into `previousState` and store the new state. -/
def pollDevice (controls : List (String × ParsingControl))
    (dev : HIDDeviceState) (data : List Nat) :
    HIDDeviceState × List HIDDelta :=
  if data.isEmpty then (dev, [])
  else
    let currentState := parseReport controls data
    let (deltas, currentUpd) := computeDeltas dev.previousState currentState
    ({ state := currentUpd, previousState := dev.state }, deltas)

/-! ### FeedbackManager: state cache and throttled LED sync -/

/-- The slice of the per-deck snapshot the LED sync path reads. -/
structure DeckSnapshot where
  playing : Bool
  paused : Bool
  cued : Bool
  syncEnabled : Bool
  syncLocked : Bool
deriving Repr, DecidableEq

/-- One LED update that got past the throttle gate in `_updateLED`. -/
structure LEDUpdate where
  deviceId : String
  controlId : String
  ledState : String
deriving Repr, DecidableEq

/-- The `FeedbackManager` fields the sync path touches: the two deck
snapshots, the selected track, and the `lastUpdate` throttle map. -/
structure FeedbackState where
  deckA : DeckSnapshot
  deckB : DeckSnapshot
  selectedTrack : Option String
  lastUpdate : List (String × Nat)
deriving Repr, DecidableEq

def ledThrottleMs : Nat := 20
def displayThrottleMs : Nat := 100

/-- `FeedbackManager._shouldUpdate`: first emission for a key always
proceeds (a stored timestamp of 0 is falsy in JS and also counts as
"no previous"), otherwise the elapsed time must reach the interval. -/
def shouldUpdate (lastUpdate : List (String × Nat)) (key : String)
    (intervalMs : Nat) (now : Nat) : Bool :=
  match mapGet lastUpdate key with
  | none => true
  | some last => if last = 0 then true else decide (intervalMs ≤ now - last)

/-- `FeedbackManager._updateLED`: the throttle gate, then the (placeholder)
send and the `lastUpdate` stamp.  The returned option is the update that
was let through, if any. -/
def updateLED (fm : FeedbackState) (deviceId controlId ledState : String)
    (now : Nat) : FeedbackState × Option LEDUpdate :=
  let key := deviceId ++ ":" ++ controlId
  if shouldUpdate fm.lastUpdate key ledThrottleMs now then
    ({ fm with lastUpdate := mapSet fm.lastUpdate key now },
     some { deviceId := deviceId, controlId := controlId, ledState := ledState })
  else (fm, none)

/-- `FeedbackManager._updateTrackInfoFeedback` (its device loop is a Phase-2
placeholder; only the throttle bookkeeping on the global key matters). -/
def updateTrackInfoFeedback (fm : FeedbackState) (now : Nat) : FeedbackState :=
  if shouldUpdate fm.lastUpdate "trackInfo" displayThrottleMs now then
    { fm with lastUpdate := mapSet fm.lastUpdate "trackInfo" now }
  else fm

/-- `FeedbackManager._syncDeckState`: play, cue and sync LEDs for one deck,
in order, each through `_updateLED`. -/
def syncDeckState (fm : FeedbackState) (deviceId deck : String)
    (snap : DeckSnapshot) (now : Nat) : FeedbackState × List LEDUpdate :=
  let r1 := updateLED fm deviceId ("play_" ++ deck)
    (if snap.playing then "playing" else "stopped") now
  let r2 := updateLED r1.1 deviceId ("cue_" ++ deck)
    (if snap.cued then "cued" else "stopped") now
  let syncSt :=
    if snap.syncEnabled && snap.syncLocked then "locked"
    else if snap.syncEnabled then "enabled" else "disabled"
  let r3 := updateLED r2.1 deviceId ("sync_" ++ deck) syncSt now
  (r3.1, r1.2.toList ++ r2.2.toList ++ r3.2.toList)

/-- `FeedbackManager.syncDevice`: replay both deck snapshots and, when a
track is selected, the track info, each through the normal throttle path. -/
def syncDevice (fm : FeedbackState) (deviceId : String) (now : Nat) :
    FeedbackState × List LEDUpdate :=
  let rA := syncDeckState fm deviceId "a" fm.deckA now
  let rB := syncDeckState rA.1 deviceId "b" fm.deckB now
  let fm3 :=
    match fm.selectedTrack with
    | some _ => updateTrackInfoFeedback rB.1 now
    | none => rB.1
  (fm3, rA.2 ++ rB.2)

/-! ### Concrete fixtures used by the counterexamples and witnesses -/

/-- An evaluation oracle that always throws (e.g. a syntax error). -/
def errEval : JSEval := fun _ _ => .error "SyntaxError"

/-- A pending-MSB table holding one entry far older than the window. -/
def staleState : PendingMap := [((0, 5), { value := 100, timestamp := 0, channel := 0 })]

/-- The generic-mapping play button: Note-On channel 0, note 11. -/
def playPattern : MIDIPattern :=
  { type := "noteon", channel := 0, note := some 11, controller := none }

def playTemplate : ActionTemplate :=
  { type := "transport", command := "play", deck := some "A", value := none,
    valueExpression := none, direction := none, mode := none,
    emitRelease := false, target := none, priority := none }

def playEntry : MappingEntry :=
  { midi := some playPattern, action := some playTemplate,
    target := some "audio", priority := some "high", condition := none }

def playConfig : DeviceMapping :=
  { device := some { name := "generic-midi", protocol := "midi" },
    mappings := [("play_a", playEntry)], controls := [] }

/-- The action `translate` produces for the play button (velocity > 0). -/
def playAction : MIDIAction :=
  { type := "transport", command := "play", target := some "audio",
    priority := some "high", timestamp := 0, deviceId := "midi-generic",
    deck := some "A", value := .bool true, direction := none }

def playEvent (v : Nat) : MIDIEvent :=
  { deviceId := "midi-generic", type := "noteon", channel := 0, timestamp := 0,
    note := some 11, velocity := some v, controller := none, value := none,
    highRes := false, normalized := none }

/-- A validated HID mapping whose top-level target/priority (`app`/`high`)
differ from the translate-time defaults. -/
def hidButtonControl : ParsingControl :=
  { type := "button", byte := some 0, bit := 0, bytes := none, signed := false,
    resolution := none, min := none, max := none }

def hidButtonTemplate : ActionTemplate :=
  { type := "library", command := "loadTrack", deck := some "A", value := none,
    valueExpression := none, direction := none, mode := none,
    emitRelease := false, target := none, priority := none }

def loadEntry : MappingEntry :=
  { midi := none, action := some hidButtonTemplate,
    target := some "app", priority := some "high", condition := none }

def hidButtonConfig : DeviceMapping :=
  { device := some { name := "hid-controller", protocol := "hid" },
    mappings := [("load_a", loadEntry)],
    controls := [("load_a", hidButtonControl)] }

def hidButtonEvent : HIDEvent :=
  { deviceId := "hid-dev", control := "load_a", type := "button", value := 1,
    delta := none, timestamp := 0 }

/-- The action the HID translator builds for that validated mapping: note
the defaulted `target`/`priority`. -/
def loadAction : HIDAction :=
  { type := "library", command := "loadTrack", target := "audio",
    priority := "normal", timestamp := 0, deviceId := "hid-dev",
    fromDev := "hid-controller", deck := some "A", value := .bool true,
    delta := none, direction := none, mode := none, rawValue := none }

/-- A MIDI control mapping carrying a value expression (non-transport). -/
def exprTemplate : ActionTemplate :=
  { type := "mixer", command := "volume", deck := some "A", value := none,
    valueExpression := some "value / 127", direction := none, mode := none,
    emitRelease := false, target := none, priority := none }

def exprEntry : MappingEntry :=
  { midi := none, action := some exprTemplate, target := some "audio",
    priority := some "normal", condition := none }

/-- A jog wheel: delta-typed HID control with a value expression. -/
def jogControl : ParsingControl :=
  { type := "delta", byte := none, bit := 0, bytes := some [1, 2],
    signed := true, resolution := some 16, min := none, max := none }

def jogTemplate : ActionTemplate :=
  { type := "jog", command := "scratch", deck := some "A", value := none,
    valueExpression := some "value / 127", direction := none, mode := none,
    emitRelease := false, target := none, priority := none }

def jogEntry : MappingEntry :=
  { midi := none, action := some jogTemplate, target := some "audio",
    priority := some "critical", condition := none }

def jogConfig : DeviceMapping :=
  { device := some { name := "hid-controller", protocol := "hid" },
    mappings := [("jog", jogEntry)], controls := [("jog", jogControl)] }

def jogEvent : HIDEvent :=
  { deviceId := "hid-dev", control := "jog", type := "delta", value := 3,
    delta := some 3, timestamp := 5 }

/-- A modifier-typed control that has a parsing descriptor but no control
mapping at all. -/
def modifierControl : ParsingControl :=
  { type := "modifier", byte := some 1, bit := 3, bytes := none, signed := false,
    resolution := none, min := none, max := none }

def shiftOnlyConfig : DeviceMapping :=
  { device := some { name := "hid-controller", protocol := "hid" },
    mappings := [], controls := [("shift", modifierControl)] }

/-- A mapped modifier control whose mapping has no action template. -/
def shiftEntry : MappingEntry :=
  { midi := none, action := none, target := some "audio",
    priority := some "normal", condition := none }

def shiftMappedConfig : DeviceMapping :=
  { device := some { name := "hid-controller", protocol := "hid" },
    mappings := [("shift", shiftEntry)], controls := [("shift", modifierControl)] }

def shiftEvent : HIDEvent :=
  { deviceId := "hid-dev", control := "shift", type := "button", value := 1,
    delta := none, timestamp := 0 }

/-- One-button parsing descriptor for the poll/diff scenario. -/
def pollControls : List (String × ParsingControl) :=
  [("play", { type := "button", byte := some 0, bit := 0, bytes := none,
              signed := false, resolution := none, min := none, max := none })]

/-- A freshly connected HID device (`state` and `previousState` empty). -/
def freshDevice : HIDDeviceState := { state := [], previousState := [] }

def defaultDeck : DeckSnapshot :=
  { playing := false, paused := false, cued := false,
    syncEnabled := false, syncLocked := false }

/-- A feedback cache with the given deck snapshots and no prior
emissions. -/
def freshFeedback (a b : DeckSnapshot) : FeedbackState :=
  { deckA := a, deckB := b, selectedTrack := none, lastUpdate := [] }

/-- A feedback cache whose `dev1:play_a` key was stamped 5 ms before the
sync call — more recent than the 20 ms LED interval. -/
def recentlyStamped : FeedbackState :=
  { deckA := { defaultDeck with playing := true }, deckB := defaultDeck,
    selectedTrack := none, lastUpdate := [("dev1:play_a", 995)] }

/-- Router fixtures: two distinct valid actions per priority class. -/
def mkRouterAction (cmd : String) (prio : String) : RouterAction :=
  { type := "transport", command := cmd, target := some "audio",
    priority := some prio, timestamp := 0, deck := some "A",
    value := .bool true, delta := none, direction := none,
    fromDev := some "generic-midi" }

/-- A router with both bounded queues already at a bound of one entry. -/
def fullRouter : RouterState :=
  { initialRouterState with
    maxQueueSize := 1,
    highQueue := [mkRouterAction "play" "high"],
    normalQueue := [mkRouterAction "volume" "normal"] }

end Mismo

namespace Mismo

/-! ### Lemmas about the map model -/

theorem mapGet_set_self {K V : Type} [DecidableEq K] (m : List (K × V)) (k : K) (v : V) :
    mapGet (mapSet m k v) k = some v := by
  induction m with
  | nil => simp [mapGet, mapSet]
  | cons p rest ih =>
      by_cases h : p.1 = k
      · simp [mapSet, mapGet, h]
      · simp [mapSet, mapGet, h, ih]

theorem mapGet_set_ne {K V : Type} [DecidableEq K] (m : List (K × V)) (k k' : K) (v : V)
    (h : k ≠ k') : mapGet (mapSet m k v) k' = mapGet m k' := by
  induction m with
  | nil => simp [mapGet, mapSet, h]
  | cons p rest ih =>
      by_cases hp : p.1 = k
      · simp [mapSet, mapGet, hp, h]
      · simp [mapSet, mapGet, hp, ih]

theorem mapGet_filter {K V : Type} [DecidableEq K] (p : K × V → Bool)
    (m : List (K × V)) (k : K) (v : V)
    (h : mapGet (m.filter p) k = some v) : p (k, v) = true := by
  induction m with
  | nil => simp [mapGet] at h
  | cons q rest ih =>
      by_cases hq : p q
      · rw [List.filter_cons_of_pos hq] at h
        unfold mapGet at h
        by_cases hk : q.1 = k
        · simp [hk] at h
          subst h
          rw [show (k, q.2) = q from by rw [← hk]] at *
          exact hq
        · simp [hk] at h
          exact ih h
      · rw [List.filter_cons_of_neg hq] at h
        exact ih h

/-! ### Claim C1: 14-bit MSB/LSB pairing -/

/-- Claim C1: for every `msb` and `lsb` in `[0,127]`, on the same device and
channel, feeding `_handle14BitCC` a CC with controller `C < 32` and value
`msb`, then a CC with controller `C + 32` and value `lsb` within the 50 ms
pairing window, yields exactly one combined event (the first call returns
`none`) whose controller is `C`, whose `value` and `value14bit` are
`msb * 128 + lsb`, whose `maxValue` is 16383, whose `normalized` is
`(msb * 128 + lsb) / 16383`, and whose `highRes` flag is `true`; the
pending MSB entry is deleted when the pair combines. -/
theorem C1_pair14bit (ch C msb lsb t1 t2 : Nat)
    (hC : C < 32) (_hmsb : msb ≤ 127) (_hlsb : lsb ≤ 127)
    (_hle : t1 ≤ t2) (hwin : t2 - t1 < 50) :
    handle14BitCC []
        { type := "cc", channel := ch, controller := C, value := msb, timestamp := t1 } t1 =
      (none, [((ch, C), { value := msb, timestamp := t1, channel := ch })]) ∧
    handle14BitCC [((ch, C), { value := msb, timestamp := t1, channel := ch })]
        { type := "cc", channel := ch, controller := C + 32, value := lsb, timestamp := t2 } t2 =
      (some { type := "cc", channel := ch, controller := C, value := msb * 128 + lsb,
              timestamp := t2, value14bit := msb * 128 + lsb, maxValue := 16383,
              normalized := ((msb * 128 + lsb : Nat) : ℚ) / 16383, highRes := true,
              lsbController := C + 32, msb := msb, lsb := lsb }, []) := by
  have h1 : ¬ (32 ≤ C ∧ C < 64) := by omega
  have h2 : 32 ≤ C + 32 ∧ C + 32 < 64 := by omega
  have h3 : t2 - t1 < highResCCTimeout := hwin
  constructor
  · simp [handle14BitCC, mapSet, h1, hC, highResCCTimeout]
  · simp [handle14BitCC, mapGet, mapDelete, h2, h3, Nat.add_sub_cancel]

/-- Witness for C1 at `msb = lsb = 127` on controller 19, 10 ms apart. -/
theorem C1_pair14bit_witness :
    handle14BitCC []
        { type := "cc", channel := 0, controller := 19, value := 127, timestamp := 100 } 100 =
      (none, [((0, 19), { value := 127, timestamp := 100, channel := 0 })]) ∧
    handle14BitCC [((0, 19), { value := 127, timestamp := 100, channel := 0 })]
        { type := "cc", channel := 0, controller := 19 + 32, value := 127, timestamp := 110 } 110 =
      (some { type := "cc", channel := 0, controller := 19, value := 127 * 128 + 127,
              timestamp := 110, value14bit := 127 * 128 + 127, maxValue := 16383,
              normalized := ((127 * 128 + 127 : Nat) : ℚ) / 16383, highRes := true,
              lsbController := 19 + 32, msb := 127, lsb := 127 }, []) :=
  C1_pair14bit 0 19 127 127 100 110 (by decide) (by decide) (by decide) (by decide)
    (by decide)

/-! ### Claim C5: sweeping of stale pending MSB entries -/

/-- Claim C5 counterexample: the stale sweep does not run on every call.
A CC with controller 70 (outside both ranges) and a CC with controller 37
(LSB range, matching a stale pending MSB) each leave the table unchanged,
so an entry 1000 ms old — far older than the 50 ms window — survives the
call. -/
theorem C5_counterexample :
    (handle14BitCC staleState
        { type := "cc", channel := 0, controller := 70, value := 3, timestamp := 1000 } 1000).2 =
      staleState ∧
    (handle14BitCC staleState
        { type := "cc", channel := 0, controller := 37, value := 3, timestamp := 1000 } 1000).2 =
      staleState ∧
    mapGet staleState (0, 5) = some { value := 100, timestamp := 0, channel := 0 } ∧
    highResCCTimeout < 1000 - 0 := by decide

/-- Claim C5 as amended: pending MSB entries older than the pairing window
are swept only on calls whose CC controller lies in the MSB range `[0,32)`;
after such a call no entry older than the window remains.  Calls in the LSB
range or with controller ≥ 64 perform no sweep (an LSB only deletes the one
entry it combines with) and can leave stale entries in the table. -/
theorem C5_msb_sweep (st : PendingMap) (msg : CCMessage) (now : Nat)
    (htype : msg.type = "cc") (hmsb : msg.controller < 32)
    (k : Nat × Nat) (e : PendingMSB)
    (hk : mapGet (handle14BitCC st msg now).2 k = some e) :
    now - e.timestamp ≤ highResCCTimeout := by
  have h1 : ¬ (32 ≤ msg.controller ∧ msg.controller < 64) := by omega
  simp only [handle14BitCC, htype, ne_eq, not_true_eq_false, if_false,
    h1, if_neg, hmsb, if_true, if_pos] at hk
  have hp := mapGet_filter _ _ _ _ hk
  simp only [gt_iff_lt, decide_not, Bool.not_eq_eq_eq_not, Bool.not_true,
    decide_eq_false_iff_not, not_lt] at hp
  exact of_decide_eq_true hp

/-- Witness for the amended C5: an MSB call at `now = 1000` on the stale
table leaves only the fresh entry, whose age is within the window. -/
theorem C5_msb_sweep_witness :
    mapGet (handle14BitCC staleState
        { type := "cc", channel := 0, controller := 7, value := 42, timestamp := 1000 } 1000).2
        (0, 7) = some { value := 42, timestamp := 1000, channel := 0 } ∧
    1000 - 1000 ≤ highResCCTimeout :=
  ⟨by decide,
   C5_msb_sweep staleState
     { type := "cc", channel := 0, controller := 7, value := 42, timestamp := 1000 } 1000
     rfl (by decide) (0, 7) { value := 42, timestamp := 1000, channel := 0 } (by decide)⟩

/-! ### Claims C2 and C3: action router -/

/-- One dispatch turn appends the head of the concatenated queues to the
send log and leaves the `isProcessing` flag clear. -/
theorem runDispatch_sent (k : Nat) (st : RouterState)
    (h : st.isProcessing = false) :
    (runDispatch k st).sent = st.sent ++ (st.highQueue ++ st.normalQueue).take k := by
  induction k generalizing st with
  | zero => simp [runDispatch]
  | succ k ih =>
      cases hq : st.highQueue with
      | cons a rest =>
          have hstep : processQueues st =
              { st with highQueue := rest, sent := st.sent ++ [a] } := by
            simp [processQueues, h, hq]
          rw [runDispatch, hstep, ih _ (by simp [h])]
          simp [hq]
      | nil =>
          cases hn : st.normalQueue with
          | cons b rest =>
              have hstep : processQueues st =
                  { st with normalQueue := rest, sent := st.sent ++ [b] } := by
                simp [processQueues, h, hq, hn]
              rw [runDispatch, hstep, ih _ (by simp [h])]
              simp [hq, hn]
          | nil =>
              have hstep : processQueues st = st := by
                simp [processQueues, h, hq, hn]
              rw [runDispatch, hstep, ih st h]
              simp [hq, hn]

/-- Claim C2: with N high-priority and M normal-priority actions queued
before any dispatch turn runs, the send log after `k` turns is exactly the
first `k` elements of `high ++ normal`: all N high actions go out in FIFO
order before any normal one; moreover a single turn emits the head of the
high queue whenever that queue is non-empty, and never emits more than one
action. -/
theorem C2_priority_order (hs ns : List RouterAction) (k : Nat)
    (st : RouterState) (a : RouterAction) (rest : List RouterAction) :
    (runDispatch k (queuedRouter hs ns)).sent = (hs ++ ns).take k ∧
    (processQueues
        { st with isProcessing := false, highQueue := a :: rest }).sent
      = st.sent ++ [a] ∧
    (processQueues st).sent.length ≤ st.sent.length + 1 := by
  refine ⟨?_, ?_, ?_⟩
  · rw [runDispatch_sent k _ rfl]
    simp [queuedRouter, initialRouterState]
  · simp [processQueues]
  · unfold processQueues
    by_cases h : st.isProcessing
    · simp [h]
    · simp only [h, if_false, Bool.false_eq_true]
      cases st.highQueue with
      | cons a rest => simp
      | nil =>
          cases st.normalQueue with
          | cons b rest => simp
          | nil => simp

/-- Claim C3: when the high (resp. normal) queue already holds
`maxQueueSize` entries, routing one more action of that priority returns
`false`, bumps the dropped-actions counter by exactly one, and leaves both
queues unchanged — every previously queued entry survives and the new
action is not in the queue. -/
theorem C3_queue_overflow (sendOk : RouterAction → Bool) (st : RouterState)
    (a b : RouterAction)
    (ha : a.target ≠ none ∧ a.priority = some "high" ∧
          st.maxQueueSize ≤ st.highQueue.length ∧ a ∉ st.highQueue)
    (hb : b.target ≠ none ∧ b.priority = some "normal" ∧
          st.maxQueueSize ≤ st.normalQueue.length ∧ b ∉ st.normalQueue) :
    (route sendOk st a).1 = false ∧
    (route sendOk st a).2.droppedActions = st.droppedActions + 1 ∧
    (route sendOk st a).2.highQueue = st.highQueue ∧
    (route sendOk st a).2.normalQueue = st.normalQueue ∧
    a ∉ (route sendOk st a).2.highQueue ∧
    (route sendOk st b).1 = false ∧
    (route sendOk st b).2.droppedActions = st.droppedActions + 1 ∧
    (route sendOk st b).2.highQueue = st.highQueue ∧
    (route sendOk st b).2.normalQueue = st.normalQueue ∧
    b ∉ (route sendOk st b).2.normalQueue := by
  obtain ⟨ha1, ha2, ha3, ha4⟩ := ha
  obtain ⟨hb1, hb2, hb3, hb4⟩ := hb
  refine ⟨?_, ?_, ?_, ?_, ?_, ?_, ?_, ?_, ?_, ?_⟩ <;>
    simp [route, ha1, ha2, ha3, ha4, hb1, hb2, hb3, hb4]

/-- Witness for C3: a router with both queues at a bound of one entry
drops a fresh high action and a fresh normal action. -/
theorem C3_queue_overflow_witness :
    (route (fun _ => true) fullRouter (mkRouterAction "cue" "high")).1 = false ∧
    (route (fun _ => true) fullRouter
        (mkRouterAction "cue" "high")).2.droppedActions =
      fullRouter.droppedActions + 1 ∧
    (route (fun _ => true) fullRouter (mkRouterAction "cue" "high")).2.highQueue =
      fullRouter.highQueue ∧
    (route (fun _ => true) fullRouter
        (mkRouterAction "cue" "high")).2.normalQueue = fullRouter.normalQueue ∧
    mkRouterAction "cue" "high" ∉
      (route (fun _ => true) fullRouter (mkRouterAction "cue" "high")).2.highQueue ∧
    (route (fun _ => true) fullRouter (mkRouterAction "browse" "normal")).1 = false ∧
    (route (fun _ => true) fullRouter
        (mkRouterAction "browse" "normal")).2.droppedActions =
      fullRouter.droppedActions + 1 ∧
    (route (fun _ => true) fullRouter
        (mkRouterAction "browse" "normal")).2.highQueue = fullRouter.highQueue ∧
    (route (fun _ => true) fullRouter
        (mkRouterAction "browse" "normal")).2.normalQueue = fullRouter.normalQueue ∧
    mkRouterAction "browse" "normal" ∉
      (route (fun _ => true) fullRouter
        (mkRouterAction "browse" "normal")).2.normalQueue :=
  C3_queue_overflow (fun _ => true) fullRouter (mkRouterAction "cue" "high")
    (mkRouterAction "browse" "normal")
    ⟨by decide, by decide, by decide, by decide⟩
    ⟨by decide, by decide, by decide, by decide⟩

/-! ### Claim C4: HID diff against the immediately preceding poll -/

/-- Claim C4 evaluated at the failing input (code bug): a freshly connected
device with one button control, fed the identical raw report `[1]` three
times.  The second poll emits a delta again — `_computeDeltas` diffs
against `previousState`, which `_pollDevice` shifts only after diffing, so
it still holds the state from two polls earlier (initially `{}`); only the
third identical poll is quiet.  The claim (and the spec's diff-idempotence
property, and the function's own "current vs previous state" doc comment)
require zero deltas already on the second poll. -/
theorem C4_diff_lag :
    (pollDevice pollControls freshDevice [1]).2.length = 1 ∧
    (pollDevice pollControls (pollDevice pollControls freshDevice [1]).1
        [1]).2.length = 1 ∧
    (pollDevice pollControls
        (pollDevice pollControls (pollDevice pollControls freshDevice [1]).1
          [1]).1 [1]).2 = [] := by decide

/-! ### Claim C6: end-to-end play-button translation -/

/-- Claim C6: the MIDI event `noteon` channel 0 note 11 under the mapping
`{midi: noteon/0/11, action: transport play deck A, target: audio,
priority: high}` yields exactly one action with those fields and
`value = true`; for transport mappings any Note-On with non-zero velocity
yields the boolean `true` regardless of the velocity's numeric value. -/
theorem C6_end_to_end (evalJS : JSEval) (v : Nat) (hv : 0 < v) :
    translateMIDI evalJS playConfig (playEvent v) =
      some { type := "transport", command := "play", target := some "audio",
             priority := some "high", timestamp := 0,
             deviceId := "midi-generic", deck := some "A",
             value := .bool true, direction := none } := by
  have hv' : v ≠ 0 := by omega
  simp [translateMIDI, playConfig, playEntry, playEvent, buildLookupTable,
    createLookupKey, createLookupKeyFromConfig, playPattern, mapGet, mapSet,
    buildActionMIDI, playTemplate, jsStrOpt, jsRawOr, hv', hv]

/-- Witness for C6 at velocity 127 with an always-throwing oracle. -/
theorem C6_end_to_end_witness :
    translateMIDI errEval playConfig (playEvent 127) =
      some { type := "transport", command := "play", target := some "audio",
             priority := some "high", timestamp := 0,
             deviceId := "midi-generic", deck := some "A",
             value := .bool true, direction := none } :=
  C6_end_to_end errEval 127 (by decide)

/-! ### Claim C7: target/priority resolution at translate time -/

/-- Claim C7 counterexample: a mapping that passes `validateDeviceMapping`
with top-level `target = "app"`, `priority = "high"` and no target/priority
in its action template.  The HID translator builds the action with the
translate-time defaults `"audio"`/`"normal"` — different from the values
the mapping resolved to at load time. -/
theorem C7_counterexample :
    validateDeviceMapping hidButtonConfig = true ∧
    (mapGet hidButtonConfig.mappings "load_a").map MappingEntry.target =
      some (some "app") ∧
    (mapGet hidButtonConfig.mappings "load_a").map MappingEntry.priority =
      some (some "high") ∧
    (translateHID errEval hidButtonConfig "hid-controller"
        { modifierState := [] } hidButtonEvent).1 = some loadAction ∧
    loadAction.target = "audio" ∧ loadAction.priority = "normal" := by decide

/-- Claim C7 as amended: the MIDI translator copies the matched mapping's
validated top-level target and priority into the action unchanged, but the
HID translator reads target and priority from the action template,
substituting the defaults "audio"/"normal" at translate time when they are
absent or empty there — so an HID action's target/priority can differ from
the mapping-level values that `validateDeviceMapping` checked at load
time. -/
theorem C7_target_priority (evalJS : JSEval) (mp mp' : MappingEntry)
    (e : MIDIEvent) (am : MIDIAction) (dn : String)
    (ms : List (String × Bool)) (cfg : DeviceMapping)
    (act : ActionTemplate) (e' : HIDEvent) (ah : HIDAction)
    (hm : buildActionMIDI evalJS mp e = some am)
    (hh : buildActionHID evalJS dn ms cfg mp' act e' = some ah) :
    (am.target = mp.target ∧ am.priority = mp.priority) ∧
    (ah.target = jsStrOr act.target "audio" ∧
     ah.priority = jsStrOr act.priority "normal") := by
  constructor
  · cases hma : mp.action with
    | none => simp [buildActionMIDI, hma] at hm
    | some act0 =>
        simp only [buildActionMIDI, hma, Option.some.injEq] at hm
        subst hm
        constructor <;> rfl
  · cases hcc : mapGet cfg.controls e'.control with
    | none => simp [buildActionHID, hcc] at hh
    | some cc =>
        simp only [buildActionHID, hcc] at hh
        split at hh
        · simp at hh
        · split at hh
          · simp at hh
          · simp only [Option.some.injEq] at hh
            subst hh
            constructor <;> rfl

/-- Witness for the amended C7 on the play-button mapping (MIDI side) and
the validated HID mapping of the counterexample (HID side). -/
theorem C7_target_priority_witness :
    (playAction.target = playEntry.target ∧
     playAction.priority = playEntry.priority) ∧
    (loadAction.target = jsStrOr hidButtonTemplate.target "audio" ∧
     loadAction.priority = jsStrOr hidButtonTemplate.priority "normal") :=
  C7_target_priority errEval playEntry loadEntry (playEvent 127) playAction
    "hid-controller" [] hidButtonConfig hidButtonTemplate hidButtonEvent
    loadAction (by decide) (by decide)

/-! ### Claim C8: expression-evaluation error fallback -/

/-- Claim C8: when the oracle behind `new Function` throws on an expression
(syntax error, undefined variable, any error), neither evaluator lets the
exception escape the translation path: the MIDI evaluator returns the
context's raw numeric `value` (`event.value || event.velocity || 0`), the
HID evaluator returns the raw `hidEvent.value`, and the enclosing
`_buildAction` still produces a well-formed action whose `value` is that
fallback rather than throwing. -/
theorem C8_eval_fallback (evalJS : JSEval) (expr s1 s2 : String)
    (me : MIDIEvent) (ms : List (String × Bool)) (he : HIDEvent)
    (mp mp' : MappingEntry) (act act' : ActionTemplate)
    (cfg : DeviceMapping) (dn : String) (cc : ParsingControl)
    (h1 : evalJS expr (midiExprCtx me) = .error s1)
    (h2 : evalJS expr (hidExprCtx ms he) = .error s2)
    (hma : mp.action = some act) (hav : act.value = none)
    (hve : act.valueExpression = some expr) (hnt : act.type ≠ "transport")
    (hve' : act'.valueExpression = some expr)
    (hcc : mapGet cfg.controls he.control = some cc)
    (hdelta : cc.type = "delta") (hcond : mp'.condition = none) :
    evaluateExpressionMIDI evalJS expr me = .num (midiCtxValue me) ∧
    evaluateExpressionHID evalJS ms expr he = .num he.value ∧
    (buildActionMIDI evalJS mp me).map MIDIAction.value =
      some (.num (midiCtxValue me)) ∧
    (buildActionHID evalJS dn ms cfg mp' act' he).map HIDAction.value =
      some (.num he.value) := by
  refine ⟨?_, ?_, ?_, ?_⟩
  · simp [evaluateExpressionMIDI, h1]
  · simp [evaluateExpressionHID, h2]
  · simp [buildActionMIDI, hma, hav, hve, evaluateExpressionMIDI, h1, hnt]
  · simp [buildActionHID, hcc, hdelta, hcond, hve',
      evaluateExpressionHID, h2]

/-- Witness for C8: the always-throwing oracle on a mixer mapping with a
value expression (MIDI) and a jog mapping with a value expression (HID). -/
theorem C8_eval_fallback_witness :
    evaluateExpressionMIDI errEval "value / 127" (playEvent 127) =
      .num (midiCtxValue (playEvent 127)) ∧
    evaluateExpressionHID errEval [] "value / 127" jogEvent =
      .num jogEvent.value ∧
    (buildActionMIDI errEval exprEntry (playEvent 127)).map MIDIAction.value =
      some (.num (midiCtxValue (playEvent 127))) ∧
    (buildActionHID errEval "hid-controller" [] jogConfig jogEntry jogTemplate
        jogEvent).map HIDAction.value = some (.num jogEvent.value) :=
  C8_eval_fallback errEval "value / 127" "SyntaxError" "SyntaxError"
    (playEvent 127) [] jogEvent exprEntry jogEntry exprTemplate jogTemplate
    jogConfig "hid-controller" jogControl rfl rfl rfl rfl rfl (by decide) rfl
    (by decide) rfl rfl

/-! ### Claim C9: modifier-state side table -/

/-- Claim C9 counterexample: a control declared `type: "modifier"` in the
parsing descriptor but absent from the control mappings.  Translating its
press event returns early on the missing mapping and leaves the modifier
side table untouched, although the claim requires the update for every
such event "whether or not the control has its own Control Mapping
entry". -/
theorem C9_counterexample :
    (translateHID errEval shiftOnlyConfig "hid-controller"
        { modifierState := [] } shiftEvent).2.modifierState = [] ∧
    (translateHID errEval shiftOnlyConfig "hid-controller"
        { modifierState := [] } shiftEvent).1 = none ∧
    (mapGet shiftOnlyConfig.controls "shift").map ParsingControl.type =
      some "modifier" ∧
    0 < shiftEvent.value := by decide

/-- Claim C9 as amended: the modifier-state update happens only when the
control also has a Control Mapping entry.  For a mapped control declared
`type: "modifier"`, translating an event sets the side-table entry for that
control to `value > 0`, and the event yields no action when the mapping has
no action template. -/
theorem C9_modifier_update (evalJS : JSEval) (cfg : DeviceMapping)
    (dn : String) (ts : HIDTranslatorState) (e : HIDEvent)
    (mp : MappingEntry) (pc : ParsingControl)
    (hmp : mapGet cfg.mappings e.control = some mp)
    (hpc : mapGet cfg.controls e.control = some pc)
    (hmod : pc.type = "modifier") :
    (translateHID evalJS cfg dn ts e).2.modifierState =
      mapSet ts.modifierState e.control (decide (0 < e.value)) ∧
    (mp.action = none → (translateHID evalJS cfg dn ts e).1 = none) := by
  cases hact : mp.action with
  | none => simp [translateHID, hmp, hpc, hmod, hact]
  | some act => simp [translateHID, hmp, hpc, hmod, hact]

/-- Witness for the amended C9: a mapped shift control (whose mapping has
no action template) flips the side table to `true` and yields no action. -/
theorem C9_modifier_update_witness :
    (translateHID errEval shiftMappedConfig "hid-controller"
        { modifierState := [] } shiftEvent).2.modifierState =
      mapSet ([] : List (String × Bool)) "shift" (decide (0 < shiftEvent.value)) ∧
    (shiftEntry.action = none →
      (translateHID errEval shiftMappedConfig "hid-controller"
          { modifierState := [] } shiftEvent).1 = none) :=
  C9_modifier_update errEval shiftMappedConfig "hid-controller"
    { modifierState := [] } shiftEvent shiftEntry modifierControl
    (by decide) (by decide) rfl

/-! ### Claim C10: syncDevice and the feedback throttle -/

/-- Claim C10 counterexample: `syncDevice` does not bypass or reset the
throttle.  With the key `dev1:play_a` stamped 5 ms before the call — inside
the 20 ms LED interval — the sync burst omits the play-A LED entirely (the
other five deck LEDs go out), although deck A is playing and the claim
requires every update of the burst to be emitted regardless of how recently
its key was last emitted. -/
theorem C10_counterexample :
    (syncDevice recentlyStamped "dev1" 1000).2.all
        (fun u => u.controlId != "play_a") = true ∧
    (syncDevice recentlyStamped "dev1" 1000).2.length = 5 ∧
    mapGet recentlyStamped.lastUpdate "dev1:play_a" = some 995 ∧
    1000 - 995 < ledThrottleMs ∧
    recentlyStamped.deckA.playing = true := by decide

/-- Claim C10 as amended: `syncDevice` replays the full deck snapshot
through the **normal** throttle path — each LED update is emitted only if
its `(deviceId, controlId)` key passes `_shouldUpdate` (a key emitted more
recently than the LED interval is suppressed, not bypassed, and no throttle
state is reset).  When none of the device's six LED keys has a previous
timestamp, the burst emits exactly the play/cue/sync updates for both decks
with the states from the snapshot, stamping each key. -/
theorem C10_sync_replay (a b : DeckSnapshot) (now : Nat) :
    (syncDevice (freshFeedback a b) "dev1" now).2 =
      [{ deviceId := "dev1", controlId := "play_a",
         ledState := if a.playing then "playing" else "stopped" },
       { deviceId := "dev1", controlId := "cue_a",
         ledState := if a.cued then "cued" else "stopped" },
       { deviceId := "dev1", controlId := "sync_a",
         ledState := if a.syncEnabled && a.syncLocked then "locked"
           else if a.syncEnabled then "enabled" else "disabled" },
       { deviceId := "dev1", controlId := "play_b",
         ledState := if b.playing then "playing" else "stopped" },
       { deviceId := "dev1", controlId := "cue_b",
         ledState := if b.cued then "cued" else "stopped" },
       { deviceId := "dev1", controlId := "sync_b",
         ledState := if b.syncEnabled && b.syncLocked then "locked"
           else if b.syncEnabled then "enabled" else "disabled" }] ∧
    (syncDevice (freshFeedback a b) "dev1" now).1.lastUpdate =
      [("dev1:play_a", now), ("dev1:cue_a", now), ("dev1:sync_a", now),
       ("dev1:play_b", now), ("dev1:cue_b", now), ("dev1:sync_b", now)] := by
  constructor <;>
    simp [syncDevice, syncDeckState, updateLED, shouldUpdate, mapGet, mapSet,
      ledThrottleMs, freshFeedback]

end Mismo
